import Mathlib

/-!
Shallow embedding of src/qlv0_implement_a_sec.rs, a Rust API service
notifier built from an API gateway, an API key authenticator backed by a
Postgres table, a notifier service that decodes an event from the request
body, an encryption service based on the argon2 password hasher, and a
notification handoff.

Modelling conventions:
  - External collaborators are explicit inputs: the Postgres database
    reachable at a given URL is a value of type StoreState supplied through
    a map from URLs to store states; the serde decode result for the
    request body is an Option Event; the random supply of one request
    (rand thread_rng and Uuid new_v4) is a Nat seed; the external delivery
    outcome is a Bool.
  - A Rust panic raised by an expect call is Except.error carrying the
    expect message; an HTTP response is its status code as a Nat.
  - UUIDs are modelled as Nat values below 2 to the 128.
-/

/-- Configuration struct from the source: an api_key field and a db_url
field, both strings. The source constructs it in main and the
authenticator reads the db_url field of the global config. -/
structure Config where
  api_key : String
  db_url : String
  deriving Repr, DecidableEq

/-- Event struct from the source: a UUID id and a data string. -/
structure Event where
  id : Nat
  data : String
  deriving Repr, DecidableEq

/-- Encrypted event struct from the source: a UUID id and a data string
holding the hasher output. -/
structure EncryptedEvent where
  id : Nat
  data : String
  deriving Repr, DecidableEq

/-- A row of the api_keys table. The spec data model gives a credential a
key and an active flag; the source query only ever inspects the key
column. -/
structure Credential where
  key : String
  active : Bool
  deriving Repr, DecidableEq

/-- State of the Postgres database behind one URL: connecting can fail,
the query can fail, or the query succeeds against a table of rows. -/
inductive StoreState where
  | unreachable : StoreState
  | queryFails : List Credential → StoreState
  | ok : List Credential → StoreState
  deriving Repr, DecidableEq

/-- Meaning of the source SQL, SELECT COUNT(*) FROM api_keys WHERE
key = $1: the number of rows whose key column equals the bound value.
The active column is not mentioned by the query. -/
def count_matching (table : List Credential) (k : String) : Nat :=
  (table.filter (fun c => c.key == k)).length

/-- Embedding of api_key_authenticator. The source connects to the
database at the db_url of the global config and aborts via expect on
connect failure, runs the count query and aborts via expect on query
failure, and otherwise returns whether the count is positive. -/
def api_key_authenticator (cfg : Config) (api_key : String)
    (world : String → StoreState) : Except String Bool :=
  match world cfg.db_url with
  | StoreState.unreachable => Except.error "Failed to connect to database"
  | StoreState.queryFails _ => Except.error "Failed to execute query"
  | StoreState.ok table => Except.ok (decide (0 < count_matching table api_key))

/-- Model of Uuid new_v4: a fresh 128-bit value drawn from the random
supply of the request. -/
def uuid_new_v4 (rng : Nat) : Nat :=
  rng % 2 ^ 128

/-- Fixed-width hexadecimal rendering used by the argon2 model below; the
output always has exactly w characters. -/
def toHexFixed (n : Nat) (w : Nat) : String :=
  String.mk ((List.range w).map (fun i => Nat.digitChar (n / 16 ^ i % 16)))

/-- Model of the argon2 digest: a value below 2 to the 256 mixing the
password bytes with the salt. The exact mixing is a model; what matters
is that the digest has a fixed width independent of the input length,
which is the documented behaviour of the argon2 password-hash primitive
the source calls. -/
def argon2_digest (data : String) (salt : Nat) : Nat :=
  data.foldl (fun a c => (a * 65599 + c.toNat) % 2 ^ 256) (salt % 2 ^ 256)

/-- Model of Argon2 hash_password as called by the source: a PHC-format
string made of a fixed parameter header, a fixed-width salt field and a
fixed-width digest field. A password hash is one way; no inverse is part
of the primitive. -/
def argon2_hash_password (data : String) (salt : Nat) : String :=
  "$argon2id$v=19$m=4096,t=3,p=1$" ++ toHexFixed (salt % 2 ^ 128) 32
    ++ "$" ++ toHexFixed (argon2_digest data salt) 64

/-- Embedding of encrypt_event: the source builds an EncryptedEvent whose
id is a fresh Uuid new_v4 value and whose data is the argon2 password
hash of the event data, salted from thread_rng. The id of the input event
is not used, and no decrypt function exists anywhere in the source. -/
def encrypt_event (event : Event) (rng : Nat) : EncryptedEvent :=
  { id := uuid_new_v4 rng
    data := argon2_hash_password event.data rng }

/-- Embedding of send_notification: the source body is an elided comment
and the function returns unit, so the outcome of the external delivery is
consumed and discarded; the caller cannot observe it. -/
def send_notification (_event : EncryptedEvent) (_sink : Bool) : Unit :=
  ()

/-- Embedding of notifier_service: decode the event from the request body
via serde (aborting via expect with message Invalid event on decode
failure), encrypt it, hand off the notification, and answer 200. The
decode result of serde on the body is the decoded input. -/
def notifier_service (decoded : Option Event) (rng : Nat) (sink : Bool) :
    Except String Nat :=
  match decoded with
  | none => Except.error "Invalid event"
  | some event =>
    let encrypted := encrypt_event event rng
    let _handoff := send_notification encrypted sink
    Except.ok 200

/-- Result of one request through the gateway: the response (a status
code, or an abort message) together with the number of credential store
contacts the request issued. -/
structure GatewayOutcome where
  response : Except String Nat
  store_queries : Nat
  deriving Repr

/-- Embedding of api_gateway: read the API-KEY header; with no header
answer 401 without touching the store; otherwise authenticate the key
against the store (one store contact) and on admission run the notifier
service, else answer 401. -/
def api_gateway (cfg : Config) (hdr : Option String) (decoded : Option Event)
    (world : String → StoreState) (rng : Nat) (sink : Bool) : GatewayOutcome :=
  match hdr with
  | none => { response := Except.ok 401, store_queries := 0 }
  | some key =>
    match api_key_authenticator cfg key world with
    | Except.error msg => { response := Except.error msg, store_queries := 1 }
    | Except.ok true =>
      { response := notifier_service decoded rng sink, store_queries := 1 }
    | Except.ok false => { response := Except.ok 401, store_queries := 1 }

/-- The rendered width of toHexFixed is its requested width. -/
theorem toHexFixed_length (n w : Nat) : (toHexFixed n w).length = w := by
  simp [toHexFixed, String.length]

/-- C1: the claim states decrypt(encrypt(e)) = e for all events. The
source encrypt_event discards the event id and applies a one-way
password hash, so no decryption function whatsoever can invert it: for
every candidate inverse d there is an event e and a random seed r with
d (encrypt_event e r) ≠ e. -/
theorem C1_no_decrypt_exists (d : EncryptedEvent → Event) :
    ∃ (e : Event) (r : Nat), d (encrypt_event e r) ≠ e := by
  by_cases h : d (encrypt_event { id := 1, data := "x" } 0) = { id := 1, data := "x" }
  · refine ⟨{ id := 2, data := "x" }, 0, ?_⟩
    have he : encrypt_event { id := 2, data := "x" } 0
        = encrypt_event { id := 1, data := "x" } 0 := rfl
    rw [he, h]
    intro hc
    exact absurd (congrArg Event.id hc) (by decide)
  · exact ⟨{ id := 1, data := "x" }, 0, h⟩

/-- C2: the claim states a failing store lookup yields a 401 rejection
and never a process abort. Evaluating the code with the store
unreachable: the handler aborts with the connect expect message instead
of producing any status code. -/
theorem C2_store_failure_aborts :
    api_gateway { api_key := "A", db_url := "db" } (some "K")
        (some { id := 1, data := "d" }) (fun _ => StoreState.unreachable) 0 true
      = { response := Except.error "Failed to connect to database"
          store_queries := 1 } := rfl

/-- C3: the claim states a key present but inactive is rejected with
reason Inactive. Evaluating the code on a store holding exactly one row
for key K marked inactive: the authenticator admits the key, because the
source query counts rows by key only and never reads the active column. -/
theorem C3_inactive_key_admitted :
    api_key_authenticator { api_key := "A", db_url := "db" } "K"
        (fun _ => StoreState.ok [{ key := "K", active := false }])
      = Except.ok true := rfl

/-- C4: a request with no API-KEY header is answered 401 and the
credential store is contacted zero times, for every configuration, body,
store state, random seed and sink outcome. -/
theorem C4_missing_key_401_no_store_io (cfg : Config) (decoded : Option Event)
    (world : String → StoreState) (rng : Nat) (sink : Bool) :
    api_gateway cfg none decoded world rng sink
      = { response := Except.ok 401, store_queries := 0 } := rfl

/-- C5: the claim states a malformed body on an admitted request yields a
returned 400. Evaluating the code with a valid active key and a body
serde cannot decode: the handler aborts with the Invalid event expect
message instead of returning a 400 result. -/
theorem C5_malformed_body_aborts :
    api_gateway { api_key := "A", db_url := "db" } (some "K") none
        (fun _ => StoreState.ok [{ key := "K", active := true }]) 0 true
      = { response := Except.error "Invalid event", store_queries := 1 } := rfl

/-- C6: the claim states a failed delivery handoff yields 500 and 200
only on success. Evaluating the code with a valid active key, a
well-formed body and a failing sink: the handler still answers 200,
because send_notification returns unit and its outcome is discarded. -/
theorem C6_sink_failure_still_200 :
    api_gateway { api_key := "A", db_url := "db" } (some "K")
        (some { id := 1, data := "d" })
        (fun _ => StoreState.ok [{ key := "K", active := true }]) 0 false
      = { response := Except.ok 200, store_queries := 1 } := rfl

/-- C7: the claim states the envelope carries the event id unchanged.
Evaluating the code on an event with id 5 under random seed 0: the
envelope id is the fresh Uuid new_v4 value 0, not 5; encrypt_event never
reads the id of its input. -/
theorem C7_envelope_id_not_preserved :
    (encrypt_event { id := 5, data := "hello" } 0).id ≠ 5 := by
  decide

/-- C8: the claim states the ciphertext length varies with the input
length as authenticated encryption would. In the code the data field of
every envelope is an argon2 PHC string of the fixed width 127, whatever
the event and seed: a fixed hash digest size. -/
theorem C8_ciphertext_length_fixed (e : Event) (r : Nat) :
    (encrypt_event e r).data.length = 127 := by
  simp [encrypt_event, argon2_hash_password, String.length_append, toHexFixed_length]
  decide

/-- C10: the admission outcome never depends on the configured api_key
field: replacing it by any other value while keeping the db_url, the
request, the store and the seeds fixed yields the identical gateway
outcome, since the authenticator reads only the db_url field. -/
theorem C10_config_api_key_irrelevant (cfg : Config) (k : String)
    (hdr : Option String) (decoded : Option Event) (world : String → StoreState)
    (rng : Nat) (sink : Bool) :
    api_gateway { cfg with api_key := k } hdr decoded world rng sink
      = api_gateway cfg hdr decoded world rng sink := by
  cases hdr <;> rfl
